import Mathlib

/-!
Verification of the PostgresToOceanBase migration engine.

This file embeds the core of the repository in Lean 4:

* `src/src/migration/converter.py` — `TypeConverter.convert_column_type`,
  `TypeConverter.convert_value`, `TypeConverter.should_ignore_column`;
* `src/src/migration/schema.py` — `SchemaMigrator._quote_identifier`,
  `SchemaMigrator._normalize_default`,
  `SchemaMigrator.generate_create_table_sql`,
  `SchemaMigrator._generate_create_index_sql`;
* `src/src/migration/data.py` — `DataMigrator.migrate_table_data`, as a
  fuel-indexed loop over an oracle of per-iteration collaborator responses.

Python strings are modelled by `String` (with character-level helpers over
`String.data`), Python `None`-able values by `Option`, Python dictionaries
returned as results by structures with `Option` fields so that an absent
key is visible as `none`.
-/

/-! ## Character and string helpers (ASCII, as used by the sources) -/

/-- Whitespace as recognised by Python's `str.strip()` (ASCII range). -/
def isSpaceC (c : Char) : Bool :=
  c = ' ' ∨ c = '\t' ∨ c = '\n' ∨ c = '\x0b' ∨ c = '\x0c' ∨ c = '\r'

/-- ASCII lower-casing of one character (`str.lower` on ASCII data). -/
def lowerChar (c : Char) : Char :=
  if 'A' ≤ c ∧ c ≤ 'Z' then Char.ofNat (c.toNat + 32) else c

/-- ASCII upper-casing of one character (`str.upper` on ASCII data). -/
def upperChar (c : Char) : Char :=
  if 'a' ≤ c ∧ c ≤ 'z' then Char.ofNat (c.toNat - 32) else c

/-- `s.lower()`. -/
def lowerS (s : String) : String := ⟨s.data.map lowerChar⟩

/-- `s.upper()`. -/
def upperS (s : String) : String := ⟨s.data.map upperChar⟩

/-- Boolean list-prefix test. -/
def isPrefixB : List Char → List Char → Bool
  | [], _ => true
  | _ :: _, [] => false
  | a :: as, b :: bs => a = b && isPrefixB as bs

/-- Substring occurrence on character lists (Python `needle in hay`). -/
def containsL (needle : List Char) : List Char → Bool
  | [] => isPrefixB needle []
  | c :: rest => isPrefixB needle (c :: rest) || containsL needle rest

/-- Python `needle in hay` for strings. -/
def containsS (needle hay : String) : Bool := containsL needle.data hay.data

/-- Python `s.startswith(pre)`. -/
def startsWithS (s pre : String) : Bool := isPrefixB pre.data s.data

/-- Python `s.endswith(suf)`. -/
def endsWithS (s suf : String) : Bool := isPrefixB suf.data.reverse s.data.reverse

/-- Strip `pat` from the front of `l`, returning the remainder when `pat`
is a prefix. -/
def stripPrefixO : List Char → List Char → Option (List Char)
  | [], l => some l
  | _ :: _, [] => none
  | a :: as, b :: bs => if a = b then stripPrefixO as bs else none

/-- Fuel-indexed loop of `replaceL`; the fuel is the length of the list,
so it never runs out at the call site. -/
def replaceGo (pat rep : List Char) : Nat → List Char → List Char
  | _, [] => []
  | 0, l => l
  | fuel + 1, c :: rest =>
    if pat.isEmpty then c :: replaceGo pat rep fuel rest
    else
      match stripPrefixO pat (c :: rest) with
      | some l2 => rep ++ replaceGo pat rep fuel l2
      | none => c :: replaceGo pat rep fuel rest

/-- Python `s.replace(pat, rep)` on character lists, for a non-empty
pattern: replace every non-overlapping occurrence, left to right. -/
def replaceL (pat rep l : List Char) : List Char := replaceGo pat rep l.length l

/-- Python `s.replace(pat, rep)` for strings. -/
def replaceS (s pat rep : String) : String := ⟨replaceL pat.data rep.data s.data⟩

/-- Left part of Python `str.strip()`. -/
def lstripL (l : List Char) : List Char := l.dropWhile isSpaceC

/-- Right part of Python `str.strip()`. -/
def rstripL (l : List Char) : List Char := (l.reverse.dropWhile isSpaceC).reverse

/-- Python `s.strip()`. -/
def stripS (s : String) : String := ⟨rstripL (lstripL s.data)⟩

/-- Python `sep.join(parts)`. -/
def joinSep (sep : String) : List String → String
  | [] => ""
  | [s] => s
  | s :: t :: rest => s ++ sep ++ joinSep sep (t :: rest)

/-- Decimal digit character. -/
def digitC (n : Nat) : Char := Char.ofNat (48 + n % 10)

/-- Fuel-indexed accumulator loop of the decimal rendering of a natural
number; a fuel of `n` itself always suffices for `n`. -/
def natReprGo : Nat → Nat → List Char → List Char
  | 0, _, acc => acc
  | fuel + 1, n, acc =>
    if n = 0 then acc else natReprGo fuel (n / 10) (digitC (n % 10) :: acc)

/-- Decimal rendering of a natural number (Python `str(n)` for `n ≥ 0`). -/
def natRepr (n : Nat) : String := if n = 0 then "0" else ⟨natReprGo n n []⟩

/-! ## Data model: column descriptors (rows of `information_schema.columns`)

A column dictionary as produced by `postgres.py` and consumed by
`converter.py` / `schema.py`.  Keys read with `.get(key, '')` are plain
strings (absence modelled by `""`), keys tested against `None` are
`Option`s. -/

structure ColumnInfo where
  column_name : String
  data_type : String
  udt_name : String := ""
  character_maximum_length : Option Nat := none
  numeric_precision : Option Nat := none
  numeric_scale : Option Nat := none
  is_nullable : String := "YES"
  column_default : Option String := none
deriving DecidableEq, Repr

/-- Python `value or default` for an optional number (`None` and `0` are
falsy, so both fall back to the default). -/
def orNat (o : Option Nat) (d : Nat) : Nat :=
  match o with
  | some n => if n = 0 then d else n
  | none => d

/-- Python `mapping.get(key, default)` over an association list. -/
def mapGet (m : List (String × String)) (key dflt : String) : String :=
  match m.find? (fun p => p.1 = key) with
  | some p => p.2
  | none => dflt

/-! ## `TypeConverter` (`src/src/migration/converter.py`) -/

/-- The `type_aliases` lookup in `TypeConverter.convert_column_type`. -/
def typeAlias (bt : String) : String :=
  if bt = "character varying" then "varchar"
  else if bt = "character" then "char"
  else if bt = "timestamp with time zone" then "timestamptz"
  else if bt = "timestamp without time zone" then "timestamp"
  else bt

/-- `TypeConverter.convert_column_type`, parameterised by the
`postgres_to_mysql` section of the loaded type-mapping configuration. -/
def convert_column_type (mapping : List (String × String))
    (postgres_type : String) (col : ColumnInfo) : String :=
  let base_type := typeAlias (lowerS postgres_type)
  if base_type = "decimal" ∨ base_type = "numeric" then
    let tpl := mapGet mapping "decimal" "DECIMAL({precision},{scale})"
    replaceS (replaceS tpl "{precision}" (natRepr (orNat col.numeric_precision 10)))
      "{scale}" (natRepr (col.numeric_scale.getD 0))
  else if base_type = "char" ∨ base_type = "varchar" then
    let length := col.character_maximum_length
    if base_type = "varchar" ∧ length.isNone then mapGet mapping "text" "TEXT"
    else
      let length := if base_type = "char" ∧ length.isNone then some 1 else length
      let tpl := mapGet mapping base_type (upperS base_type)
      replaceS tpl "{length}" (natRepr (orNat length 255))
  else
    mapGet mapping base_type (upperS postgres_type)

/-- The loop body of `TypeConverter.should_ignore_column`: for each rule,
test rule-in-`data_type`, rule-in-`udt_name`, then the array marker. -/
def ignoreLoop (data_type udt_name : String) : List String → Bool
  | [] => false
  | r :: rs =>
    if containsS r data_type then true
    else if containsS r udt_name then true
    else if startsWithS udt_name "_" then true
    else ignoreLoop data_type udt_name rs

/-- `TypeConverter.should_ignore_column`. -/
def should_ignore_column (col : ColumnInfo) (ignore_types : List String) : Bool :=
  ignoreLoop (lowerS col.data_type) (lowerS col.udt_name) ignore_types

/-! ## `SchemaMigrator` (`src/src/migration/schema.py`) -/

/-- A character of the class `[A-Za-z0-9_ ]` in the cast-suffix pattern of
`SchemaMigrator._normalize_default`. -/
def isCastChar (c : Char) : Bool :=
  ('A' ≤ c ∧ c ≤ 'Z') ∨ ('a' ≤ c ∧ c ≤ 'z') ∨ ('0' ≤ c ∧ c ≤ '9') ∨ c = '_' ∨ c = ' '

/-- Left-to-right scan of `re.sub(r"::[A-Za-z0-9_ ]+$", "", expr)`: at the
first position where a `::` is followed by a non-empty all-class tail
reaching the end, the rest of the string is dropped. -/
def stripCastL : List Char → List Char
  | [] => []
  | c :: rest =>
    if c = ':' then
      match rest with
      | ':' :: tail =>
        if ¬ tail.isEmpty ∧ tail.all isCastChar then []
        else c :: stripCastL rest
      | _ => c :: stripCastL rest
    else c :: stripCastL rest

/-- `SchemaMigrator._quote_identifier`. -/
def _quote_identifier (name : String) : String :=
  "`" ++ replaceS name "`" "``" ++ "`"

/-- The tail of `SchemaMigrator._normalize_default` after the
boolean-specific canonicalization: the current-timestamp rewrite, else the
stripped expression. -/
def normDefaultTail (normalized expr : String) : String :=
  if normalized = "now()" then "CURRENT_TIMESTAMP" else expr

/-- `SchemaMigrator._normalize_default`. -/
def _normalize_default (base_type column_default : String) : String :=
  if column_default = "" then ""
  else
    let expr := stripS column_default
    let expr :=
      if startsWithS expr "(" ∧ endsWithS expr ")" then
        stripS ⟨(expr.data.drop 1).dropLast⟩
      else expr
    let expr := stripS ⟨stripCastL expr.data⟩
    let normalized := lowerS expr
    if base_type = "boolean" then
      if normalized = "true" ∨ normalized = "t" ∨ normalized = "1" then "1"
      else if normalized = "false" ∨ normalized = "f" ∨ normalized = "0" then "0"
      else normDefaultTail normalized expr
    else normDefaultTail normalized expr

/-- The serial / auto-increment inference of
`SchemaMigrator.generate_create_table_sql`: declared type `serial` or
`bigserial`, or a default expression containing `nextval(`. -/
def is_serialB (col : ColumnInfo) : Bool :=
  let base_type := lowerS col.data_type
  let column_default := col.column_default.getD ""
  (base_type = "serial" || base_type = "bigserial")
    || containsS "nextval(" (lowerS column_default)

/-- One column definition line of
`SchemaMigrator.generate_create_table_sql` (the loop body over
`filtered_columns`, including the final `.strip()`). -/
def column_def (mapping : List (String × String)) (primary_keys : List String)
    (col : ColumnInfo) : String :=
  let quoted_col_name := _quote_identifier col.column_name
  let base_type := lowerS col.data_type
  let nullable := if col.is_nullable = "NO" then "NOT NULL" else ""
  let target_type := convert_column_type mapping col.data_type col
  let is_primary := primary_keys.contains col.column_name
  let column_default := col.column_default.getD ""
  let is_serial := is_serialB col
  let default :=
    if is_serial then ""
    else
      let normalized_default := _normalize_default base_type column_default
      if normalized_default = "" then "" else "DEFAULT " ++ normalized_default
  let target_type :=
    if is_primary && is_serial then target_type ++ " AUTO_INCREMENT" else target_type
  stripS ("    " ++ quoted_col_name ++ " " ++ target_type ++ " " ++ nullable ++ " " ++ default)

/-- A table schema dictionary as consumed by
`SchemaMigrator.generate_create_table_sql`. -/
structure TableSchema where
  table_name : String
  columns : List ColumnInfo
  primary_keys : List String
deriving DecidableEq, Repr

/-- The trailing `PRIMARY KEY (...)` clause of
`SchemaMigrator.generate_create_table_sql` over the surviving primary-key
columns. -/
def primary_key_def (valid_primary_keys : List String) : String :=
  if valid_primary_keys.isEmpty then ""
  else ",\n    PRIMARY KEY (" ++ joinSep ", " (valid_primary_keys.map _quote_identifier) ++ ")"

/-- `SchemaMigrator.generate_create_table_sql`, returning the SQL together
with the ignored-column names. -/
def generate_create_table_sql (mapping : List (String × String))
    (schema : TableSchema) (ignore_types : List String) : String × List String :=
  let filtered_columns := schema.columns.filter (fun c => !should_ignore_column c ignore_types)
  let ignored_columns :=
    (schema.columns.filter (fun c => should_ignore_column c ignore_types)).map (·.column_name)
  let column_defs := filtered_columns.map (column_def mapping schema.primary_keys)
  let valid_primary_keys := schema.primary_keys.filter (fun pk => !ignored_columns.contains pk)
  let sql :=
    "CREATE TABLE IF NOT EXISTS " ++ _quote_identifier schema.table_name ++ " (\n"
      ++ joinSep ",\n" column_defs
      ++ primary_key_def valid_primary_keys
      ++ "\n) ENGINE=InnoDB DEFAULT CHARSET=utf8mb4;"
  (sql, ignored_columns)

/-- `SchemaMigrator._generate_create_index_sql`. -/
def _generate_create_index_sql (table_name index_name : String)
    (columns : List String) (is_unique : Bool) : String :=
  let quoted_table := _quote_identifier table_name
  let quoted_index := _quote_identifier index_name
  let columns_str := joinSep ", " (columns.map _quote_identifier)
  let unique := if is_unique then "UNIQUE " else ""
  "CREATE " ++ unique ++ "INDEX " ++ quoted_index ++ " ON " ++ quoted_table
    ++ " (" ++ columns_str ++ ");"

/-! ## Python values and `TypeConverter.convert_value` -/

/-- The Python values flowing through `TypeConverter.convert_value` at
row-transfer time: `None`, booleans, integers and strings. -/
inductive PyVal where
  | none
  | bool (b : Bool)
  | int (n : Int)
  | str (s : String)
deriving DecidableEq, Repr

/-- Python truthiness (`if value:`) on the modelled values. -/
def truthy : PyVal → Bool
  | .none => false
  | .bool b => b
  | .int n => n ≠ 0
  | .str s => s ≠ ""

/-- Python `str(value)` on the modelled values. -/
def pyStr : PyVal → String
  | .none => "None"
  | .bool true => "True"
  | .bool false => "False"
  | .int n => if n < 0 then "-" ++ natRepr n.natAbs else natRepr n.natAbs
  | .str s => s

/-- `TypeConverter.convert_value`. -/
def convert_value (value : PyVal) (postgres_type : String) : PyVal :=
  if value = PyVal.none then PyVal.none
  else
    let base_type := lowerS postgres_type
    if base_type = "boolean" then PyVal.int (if truthy value then 1 else 0)
    else if base_type = "uuid" then PyVal.str (pyStr value)
    else if base_type = "timestamp" ∨ base_type = "timestamptz" then value
    else value

/-! ## `DataMigrator.migrate_table_data` (`src/src/migration/data.py`)

The per-table loop is modelled as a fuel-indexed iteration over an oracle
`resp : Nat → IterResp` giving, for each loop iteration, the joint
behaviour of the collaborators: an exception raised during the
read/convert/write `try` block, or a chunk of `n` rows read together with
the outcome of `insert_batch` on it (`Option.none` when the insert or the
conversion raised, `some k` when it returned an inserted count `k`).
The state carries two ghost observers that do not feed back into control
flow: `attempts`, the number of completed `insert_batch` calls, and
`offsets`, the offsets passed to `get_table_data`, in order. -/

/-- Static configuration of one `migrate_table_data` run. -/
structure DataCfg where
  total : Nat
  chunk_size : Nat
  max_retries : Nat
  continue_on_error : Bool
deriving DecidableEq, Repr

/-- One loop iteration's collaborator behaviour. -/
inductive IterResp where
  | exc
  | read (n : Nat) (ins : Option Nat)
deriving DecidableEq, Repr

/-- Mutable loop state of `migrate_table_data`, with ghost observers. -/
structure LoopState where
  migrated : Nat
  failed : Nat
  retry_count : Nat
  attempts : Nat
  offsets : List Nat
deriving DecidableEq, Repr

/-- The loop state at entry of the `while` loop. -/
def initState : LoopState := ⟨ 0, 0, 0, 0, [] ⟩

/-- One iteration of the `while migrated < total` body: returns the next
state and whether the iteration breaks out of the loop. -/
def loopStep (cfg : DataCfg) (s : LoopState) (r : IterResp) : LoopState × Bool :=
  let s := { s with offsets := s.offsets ++ [ s.migrated ] }
  match r with
  | .exc =>
      ({ s with failed := s.failed + cfg.chunk_size }, !cfg.continue_on_error)
  | .read 0 _ => (s, true)
  | .read (_n + 1) Option.none =>
      ({ s with failed := s.failed + cfg.chunk_size }, !cfg.continue_on_error)
  | .read (n + 1) (some 0) =>
      let s := { s with failed := s.failed + (n + 1), attempts := s.attempts + 1 }
      if s.retry_count < cfg.max_retries then
        ({ s with retry_count := s.retry_count + 1 }, false)
      else (s, true)
  | .read (_n + 1) (some (k + 1)) =>
      ({ s with migrated := s.migrated + (k + 1), retry_count := 0,
                attempts := s.attempts + 1 }, false)

/-- The `while migrated < total` loop, driven by `fuel` remaining
iterations; `none` means the fuel ran out with the loop still running. -/
def runLoop (cfg : DataCfg) (resp : Nat → IterResp) :
    Nat → Nat → LoopState → Option LoopState
  | 0, _, _ => Option.none
  | fuel + 1, i, s =>
    if s.migrated < cfg.total then
      match loopStep cfg s (resp i) with
      | (s2, true) => some s2
      | (s2, false) => runLoop cfg resp fuel (i + 1) s2
    else some s

/-- The per-table result dictionary; `Option` fields record whether the
corresponding key is present. -/
structure MigResult where
  table_name : String
  status : String
  migrated : Option Nat
  failed : Option Nat
  total : Option Nat
deriving DecidableEq, Repr

/-- `DataMigrator.migrate_table_data`: the zero-row short-circuit returns
the two-key `skipped` dictionary; otherwise the loop runs and the final
dictionary carries `migrated`, `failed`, `total` and the
`success`/`partial` status. -/
def migrate_table_data (cfg : DataCfg) (resp : Nat → IterResp) (fuel : Nat)
    (table_name : String) : Option MigResult :=
  if cfg.total = 0 then
    some ⟨ table_name, "skipped", Option.none, Option.none, Option.none ⟩
  else
    (runLoop cfg resp fuel 0 initState).map (fun s =>
      ⟨ table_name, if s.failed = 0 then "success" else "partial",
        some s.migrated, some s.failed, some cfg.total ⟩)

/-! ## Theorems: `TypeConverter` claims -/

/-- One step of the ignore loop as a boolean disjunction. -/
theorem ignoreLoop_cons (dt udt r : String) (rs : List String) :
    ignoreLoop dt udt (r :: rs) =
      (containsS r dt || containsS r udt || startsWithS udt "_" || ignoreLoop dt udt rs) := by
  conv_lhs => rw [ignoreLoop]
  cases h1 : containsS r dt <;> cases h2 : containsS r udt
    <;> cases h3 : startsWithS udt "_" <;> simp [h1, h2, h3]

/-- Characterisation of the ignore loop: some rule iteration fires one of
its three tests. -/
theorem ignoreLoop_eq_true_iff (dt udt : String) (rules : List String) :
    ignoreLoop dt udt rules = true ↔
      ∃ r ∈ rules, (containsS r dt || containsS r udt || startsWithS udt "_") = true := by
  induction rules with
  | nil => simp [ignoreLoop]
  | cons r rs ih =>
    rw [ignoreLoop_cons]
    simp only [Bool.or_eq_true, List.mem_cons, ih]
    constructor
    · rintro ((h | h) | h)
      · exact ⟨ r, Or.inl rfl, by simp [h] ⟩
      · exact ⟨ r, Or.inl rfl, by simp [h] ⟩
      · obtain ⟨ x, hx, hp ⟩ := h
        exact ⟨ x, Or.inr hx, hp ⟩
    · rintro ⟨ x, (rfl | hx), hp ⟩
      · tauto
      · exact Or.inr ⟨ x, hx, hp ⟩

/-- C1 (counterexample): with the empty ignore-rule list,
`should_ignore_column` returns `false` for an array-typed column (UDT name
`_text`, which carries the leading-underscore array marker), contradicting
the claim that such a column is ignored even when the rule list is empty:
the array-marker test sits inside the `for` loop over the rules, so it is
never reached when the rule list is empty. -/
theorem C1_counterexample :
    should_ignore_column
      ⟨ "tags", "ARRAY", "_text", Option.none, Option.none, Option.none, "YES", Option.none ⟩
      [] = false := by decide

/-- C1 (amended): a column whose UDT name begins with the array-type
marker is ignored whenever the rule list is non-empty, regardless of which
rule substrings are listed; with the empty rule list `should_ignore_column`
always returns `false`, array-typed columns included. -/
theorem C1_array_marker_needs_nonempty_rules :
    (∀ col : ColumnInfo, should_ignore_column col [] = false) ∧
    (∀ (col : ColumnInfo) (rules : List String), rules ≠ [] →
      startsWithS (lowerS col.udt_name) "_" = true →
      should_ignore_column col rules = true) := by
  constructor
  · intro col; rfl
  · intro col rules hne hst
    cases rules with
    | nil => exact absurd rfl hne
    | cons r rs =>
      unfold should_ignore_column
      rw [ignoreLoop_cons, hst]
      simp only [Bool.or_true, Bool.true_or]

/-- C1 (witness): the amended statement at a concrete array-typed column
and the concrete non-empty rule list `["json"]`. -/
theorem C1_witness :
    (([ "json" ] : List String) ≠ [] ∧
      startsWithS
        (lowerS (⟨ "tags", "ARRAY", "_text", Option.none, Option.none, Option.none,
          "YES", Option.none ⟩ : ColumnInfo).udt_name) "_" = true) ∧
    should_ignore_column
      ⟨ "tags", "ARRAY", "_text", Option.none, Option.none, Option.none, "YES", Option.none ⟩
      [ "json" ] = true :=
  ⟨ ⟨ by decide, by decide ⟩,
    C1_array_marker_needs_nonempty_rules.2
      ⟨ "tags", "ARRAY", "_text", Option.none, Option.none, Option.none, "YES", Option.none ⟩
      [ "json" ] (by decide) (by decide) ⟩

/-- C7: `should_ignore_column` is monotone over rule lists — adding a rule
never un-ignores a previously-ignored column. -/
theorem C7_should_ignore_monotone (col : ColumnInfo) (R R2 : List String)
    (hsub : R ⊆ R2) (h : should_ignore_column col R = true) :
    should_ignore_column col R2 = true := by
  unfold should_ignore_column at h ⊢
  rw [ignoreLoop_eq_true_iff] at h ⊢
  obtain ⟨ r, hr, hp ⟩ := h
  exact ⟨ r, hsub hr, hp ⟩

/-- C7 (witness): monotonicity applied to the jsonb column of the spec's
scenario, `R = ["jsonb"] ⊆ R' = ["jsonb", "xml"]`. -/
theorem C7_witness :
    (([ "jsonb" ] : List String) ⊆ [ "jsonb", "xml" ] ∧
      should_ignore_column
        ⟨ "data", "jsonb", "jsonb", Option.none, Option.none, Option.none, "YES", Option.none ⟩
        [ "jsonb" ] = true) ∧
    should_ignore_column
      ⟨ "data", "jsonb", "jsonb", Option.none, Option.none, Option.none, "YES", Option.none ⟩
      [ "jsonb", "xml" ] = true := by
  have hsub : ([ "jsonb" ] : List String) ⊆ [ "jsonb", "xml" ] := by
    intro a ha
    simp only [List.mem_singleton] at ha
    simp [ha]
  exact ⟨ ⟨ hsub, by decide ⟩,
    C7_should_ignore_monotone
      ⟨ "data", "jsonb", "jsonb", Option.none, Option.none, Option.none, "YES", Option.none ⟩
      [ "jsonb" ] [ "jsonb", "xml" ] hsub (by decide) ⟩

/-- C9: `convert_value` returns `None` for a `None` input before any
type-specific rule runs, and on source type `boolean` maps every non-null
value to the integer `1` or `0` by Python truthiness — in particular the
integer `0` and the empty string, which are not booleans, map to `0`, and
any truthy value maps to `1`. -/
theorem C9_convert_boolean_truthiness :
    (∀ t : String, convert_value PyVal.none t = PyVal.none) ∧
    (∀ v : PyVal, v ≠ PyVal.none →
      convert_value v "boolean" = PyVal.int (if truthy v = true then 1 else 0)) ∧
    convert_value (PyVal.int 0) "boolean" = PyVal.int 0 ∧
    convert_value (PyVal.str "") "boolean" = PyVal.int 0 ∧
    convert_value (PyVal.bool true) "boolean" = PyVal.int 1 ∧
    convert_value (PyVal.int 5) "boolean" = PyVal.int 1 := by
  refine ⟨ ?_, ?_, by decide, by decide, by decide, by decide ⟩
  · intro t
    simp [convert_value]
  · intro v hv
    have hb : lowerS "boolean" = "boolean" := by decide
    simp [convert_value, hv, hb]

/-- C9 (witness): the non-null boolean conversion applied to the empty
string, a falsy non-boolean value. -/
theorem C9_witness :
    (PyVal.str "" ≠ PyVal.none) ∧
    convert_value (PyVal.str "") "boolean" =
      PyVal.int (if truthy (PyVal.str "") = true then 1 else 0) :=
  ⟨ by decide, C9_convert_boolean_truthiness.2.1 (PyVal.str "") (by decide) ⟩

/-! ## Theorems: `SchemaMigrator` claims -/

/-- C3 (counterexample): a `serial` column that is not a member of the
primary key gets its DEFAULT clause suppressed but does NOT get the
`AUTO_INCREMENT` modifier — the code appends the modifier only under
`is_primary and is_serial`, contradicting the claim that it is appended
whether or not the column is in the primary key. -/
theorem C3_counterexample :
    (generate_create_table_sql []
        ⟨ "t", [ ⟨ "id", "serial", "int4", Option.none, Option.none, Option.none,
          "NO", Option.none ⟩ ], [] ⟩ []).1
      = "CREATE TABLE IF NOT EXISTS `t` (\n`id` SERIAL NOT NULL\n) ENGINE=InnoDB DEFAULT CHARSET=utf8mb4;"
    ∧ containsS "AUTO_INCREMENT"
        (generate_create_table_sql []
          ⟨ "t", [ ⟨ "id", "serial", "int4", Option.none, Option.none, Option.none,
            "NO", Option.none ⟩ ], [] ⟩ []).1 = false
    ∧ containsS "DEFAULT " (column_def [] []
        ⟨ "id", "serial", "int4", Option.none, Option.none, Option.none,
          "NO", Option.none ⟩) = false := by
  refine ⟨ by decide, by decide, by decide ⟩

/-- C3 (amended): for a column inferred as auto-increment (serial alias or
`nextval(` default), the generated column definition suppresses the
DEFAULT clause entirely (the default slot of the definition is the empty
string) whether or not the column is in the primary key, but the
`AUTO_INCREMENT` modifier is appended only when the column is a member of
the primary-key list. -/
theorem C3_serial_default_suppressed_auto_increment_pk_only :
    ∀ (mapping : List (String × String)) (pks : List String) (col : ColumnInfo),
      is_serialB col = true →
      column_def mapping pks col =
        stripS ("    " ++ _quote_identifier col.column_name ++ " "
          ++ (if pks.contains col.column_name then
                convert_column_type mapping col.data_type col ++ " AUTO_INCREMENT"
              else convert_column_type mapping col.data_type col)
          ++ " " ++ (if col.is_nullable = "NO" then "NOT NULL" else "") ++ " ") := by
  intro mapping pks col h
  simp only [column_def, h, Bool.and_true, if_true]
  cases hp : pks.contains col.column_name <;> simp [hp]

/-- C3 (witness): the amended statement at a concrete primary-key `serial`
column, whose definition carries `AUTO_INCREMENT` and no DEFAULT clause. -/
theorem C3_witness :
    is_serialB
        ⟨ "id", "serial", "int4", Option.none, Option.none, Option.none,
          "NO", Option.none ⟩ = true ∧
    column_def [] [ "id" ]
        ⟨ "id", "serial", "int4", Option.none, Option.none, Option.none,
          "NO", Option.none ⟩ =
      stripS ("    " ++ _quote_identifier "id" ++ " "
        ++ (if ([ "id" ] : List String).contains "id" then
              convert_column_type [] "serial"
                ⟨ "id", "serial", "int4", Option.none, Option.none, Option.none,
                  "NO", Option.none ⟩ ++ " AUTO_INCREMENT"
            else convert_column_type [] "serial"
              ⟨ "id", "serial", "int4", Option.none, Option.none, Option.none,
                "NO", Option.none ⟩)
        ++ " " ++ (if ("NO" : String) = "NO" then "NOT NULL" else "") ++ " ") :=
  ⟨ by decide,
    C3_serial_default_suppressed_auto_increment_pk_only [] [ "id" ]
      ⟨ "id", "serial", "int4", Option.none, Option.none, Option.none,
        "NO", Option.none ⟩ (by decide) ⟩

/-- C6: default-value normalization maps `now()` — also after stripping an
enclosing parenthesis pair or a trailing `::type-name` cast suffix — to
`CURRENT_TIMESTAMP` for every declared base type, maps
`'pending'::character varying` to `'pending'` with the cast suffix removed
and the literal's case preserved, and the generated column definition for
`status varchar(32) NOT NULL DEFAULT 'pending'::character varying` emits
`DEFAULT 'pending'`. -/
theorem C6_default_normalization :
    (∀ bt : String, _normalize_default bt "now()" = "CURRENT_TIMESTAMP") ∧
    (∀ bt : String, _normalize_default bt "(now())" = "CURRENT_TIMESTAMP") ∧
    (∀ bt : String, _normalize_default bt "now()::timestamp with time zone" = "CURRENT_TIMESTAMP") ∧
    _normalize_default "character varying" "'pending'::character varying" = "'pending'" ∧
    column_def [ ("varchar", "VARCHAR({length})") ] []
        ⟨ "status", "character varying", "varchar", some 32, Option.none, Option.none,
          "NO", some "'pending'::character varying" ⟩
      = "`status` VARCHAR(32) NOT NULL DEFAULT 'pending'" := by
  refine ⟨ ?_, ?_, ?_, by decide, by decide ⟩
  all_goals
    intro bt
    by_cases h : bt = "boolean"
    · subst h; decide
    · simp only [_normalize_default, h, if_false]
      decide

/-- The backtick character (code point 96). -/
def bq : Char := Char.ofNat 96

/-- Identifier escaping as the specification words it: each embedded
backtick character doubled, all other characters kept. -/
def doubleBackticksSpec : List Char → List Char
  | [] => []
  | c :: rest => (if c = bq then [ c, c ] else [ c ]) ++ doubleBackticksSpec rest

/-- String equality from character-data equality. -/
theorem string_ext {a b : String} (h : a.data = b.data) : a = b := by
  cases a; cases b; exact congrArg String.mk h

/-- The backtick-replacement loop computes the spec-side doubling. -/
theorem replaceGo_backtick :
    ∀ (fuel : Nat) (l : List Char), l.length ≤ fuel →
      replaceGo [ bq ] [ bq, bq ] fuel l = doubleBackticksSpec l := by
  intro fuel
  induction fuel with
  | zero =>
    intro l h
    cases l with
    | nil => rfl
    | cons c rest => simp at h
  | succ fuel ih =>
    intro l h
    cases l with
    | nil => rfl
    | cons c rest =>
      have hrest : rest.length ≤ fuel := by
        simp only [List.length_cons] at h
        omega
      by_cases hc : bq = c
      · subst hc
        simp [replaceGo, stripPrefixO, doubleBackticksSpec, ih rest hrest]
      · simp [replaceGo, stripPrefixO, hc, Ne.symm hc, doubleBackticksSpec, ih rest hrest]

/-- `_quote_identifier` is exactly the backtick wrap of the spec-side
doubling of embedded backticks. -/
theorem quote_identifier_spec (name : String) :
    _quote_identifier name = ⟨ bq :: (doubleBackticksSpec name.data ++ [ bq ]) ⟩ := by
  apply string_ext
  have h1 : ("`" : String).data = [ bq ] := by decide
  have h2 : ("``" : String).data = [ bq, bq ] := by decide
  have h3 : replaceGo ("`" : String).data ("``" : String).data name.data.length name.data
      = doubleBackticksSpec name.data := by
    rw [h1, h2]
    exact replaceGo_backtick _ _ (Nat.le_refl _)
  show (("`" ++ replaceS name "`" "``") ++ "`").data = _
  rw [String.data_append, String.data_append, h1]
  show [ bq ] ++ replaceL ("`" : String).data ("``" : String).data name.data ++ [ bq ] = _
  unfold replaceL
  rw [h3]
  simp

/-- After the leading-spaces pad and the final `.strip()`, a column
definition still starts with the quoted identifier: the quote starts and
ends with a backtick, which is not whitespace. -/
theorem stripS_quote_prefix (name t : String) :
    ∃ r : String, stripS ("    " ++ (_quote_identifier name ++ t)) = _quote_identifier name ++ r := by
  have hq : (_quote_identifier name).data = bq :: (doubleBackticksSpec name.data ++ [ bq ]) := by
    rw [quote_identifier_spec]
  have hsp : isSpaceC bq = false := by decide
  have hdata : ("    " ++ (_quote_identifier name ++ t)).data
      = [ ' ', ' ', ' ', ' ' ] ++ ((_quote_identifier name).data ++ t.data) := by
    rw [String.data_append, String.data_append]
  have hl : lstripL (("    " ++ (_quote_identifier name ++ t)).data)
      = (_quote_identifier name).data ++ t.data := by
    rw [hdata]
    unfold lstripL
    rw [List.dropWhile_append]
    have h4 : List.dropWhile isSpaceC [ ' ', ' ', ' ', ' ' ] = [] := by decide
    rw [h4]
    simp only [List.isEmpty_nil, if_true]
    rw [hq]
    simp [List.dropWhile_cons, hsp]
  have hqrev : List.dropWhile isSpaceC (_quote_identifier name).data.reverse
      = (_quote_identifier name).data.reverse := by
    rw [hq]
    simp [List.reverse_cons, List.dropWhile_append, List.dropWhile_cons, hsp]
  have hr : ∃ rl : List Char, rstripL ((_quote_identifier name).data ++ t.data)
      = (_quote_identifier name).data ++ rl := by
    unfold rstripL
    rw [List.reverse_append, List.dropWhile_append]
    by_cases he : (List.dropWhile isSpaceC t.data.reverse).isEmpty
    · rw [if_pos he, hqrev]
      exact ⟨ [], by simp ⟩
    · rw [if_neg he]
      exact ⟨ (List.dropWhile isSpaceC t.data.reverse).reverse, by simp ⟩
  obtain ⟨ rl, hrl ⟩ := hr
  refine ⟨ ⟨ rl ⟩, ?_ ⟩
  apply string_ext
  show rstripL (lstripL (("    " ++ (_quote_identifier name ++ t)).data)) = _
  rw [hl, hrl, String.data_append]

/-- C10: every identifier emitted into generated DDL goes through
`_quote_identifier`, which wraps the name in backticks with each embedded
backtick doubled (stated against the independent `doubleBackticksSpec`
formulation): the index statement uses it for the index name, the table
name and every index column; the `PRIMARY KEY` clause uses it for every
surviving primary-key column; every emitted column definition starts with
the quoted column name; and the `CREATE TABLE` statement applies it to the
table name. -/
theorem C10_identifiers_quoted :
    (∀ name : String,
        _quote_identifier name = ⟨ bq :: (doubleBackticksSpec name.data ++ [ bq ]) ⟩) ∧
    (∀ (t i : String) (cols : List String) (u : Bool),
        _generate_create_index_sql t i cols u =
          "CREATE " ++ (if u then "UNIQUE " else "") ++ "INDEX " ++ _quote_identifier i
            ++ " ON " ++ _quote_identifier t ++ " ("
            ++ joinSep ", " (cols.map _quote_identifier) ++ ");") ∧
    (∀ pks : List String,
        primary_key_def pks = if pks.isEmpty then ""
          else ",\n    PRIMARY KEY (" ++ joinSep ", " (pks.map _quote_identifier) ++ ")") ∧
    (∀ (mapping : List (String × String)) (pks : List String) (col : ColumnInfo),
        ∃ r, column_def mapping pks col = _quote_identifier col.column_name ++ r) ∧
    (∀ (mapping : List (String × String)) (schema : TableSchema) (rules : List String),
        ∃ r, (generate_create_table_sql mapping schema rules).1
          = "CREATE TABLE IF NOT EXISTS " ++ _quote_identifier schema.table_name ++ r) := by
  refine ⟨ quote_identifier_spec, ?_, ?_, ?_, ?_ ⟩
  · intro t i cols u; rfl
  · intro pks; rfl
  · intro mapping pks col
    simp only [column_def, String.append_assoc]
    exact stripS_quote_prefix col.column_name _
  · intro mapping schema rules
    refine ⟨ " (\n" ++
      (joinSep ",\n"
          (List.map (column_def mapping schema.primary_keys)
            (List.filter (fun c => !should_ignore_column c rules) schema.columns)) ++
        (primary_key_def
            (List.filter
              (fun pk =>
                !(List.map (fun x => x.column_name)
                      (List.filter (fun c => should_ignore_column c rules) schema.columns)).contains
                  pk)
              schema.primary_keys) ++
          "\n) ENGINE=InnoDB DEFAULT CHARSET=utf8mb4;")), ?_ ⟩
    simp only [generate_create_table_sql, String.append_assoc]

/-! ## Theorems: `DataMigrator` claims -/

/-- C2 (counterexample): a 5-row table whose every insertion returns zero
inserted rows, with `max_retries = 3` and `chunk_size = 10`: the loop
performs 4 insertion attempts (the initial attempt plus 3 retries), all at
offset 0, and returns `partial` with `migrated = 0` but `failed = 20` —
the chunk's row count is added to the failure counter on *every* attempt —
contradicting the claimed 3 attempts and `failed = total = 5`. -/
theorem C2_counterexample :
    migrate_table_data ⟨ 5, 10, 3, false ⟩ (fun _ => IterResp.read 5 (some 0)) 10 "users"
        = some ⟨ "users", "partial", some 0, some 20, some 5 ⟩
    ∧ runLoop ⟨ 5, 10, 3, false ⟩ (fun _ => IterResp.read 5 (some 0)) 10 0 initState
        = some ⟨ 0, 20, 3, 4, [ 0, 0, 0, 0 ] ⟩
    ∧ (20 : Nat) ≠ 5 ∧ (4 : Nat) ≠ 3 :=
  ⟨ by decide, by decide, by decide, by decide ⟩

/-- C2 (amended): for a non-empty table in which every insertion returns
zero inserted rows (each read returning `m + 1` rows), `migrate_table_data`
with `max_retries = 3` performs exactly 4 insertion attempts (the initial
attempt plus 3 retries), all at offset 0, and returns `partial` with
`migrated = 0` and `failed = 4 * (m + 1)` — four chunk-lengths, not the
table total. -/
theorem C2_all_batches_fail :
    ∀ (t m c fuel : Nat) (b : Bool) (name : String),
      runLoop ⟨ t + 1, c, 3, b ⟩ (fun _ => IterResp.read (m + 1) (some 0)) (fuel + 4) 0 initState
          = some ⟨ 0, 4 * (m + 1), 3, 4, [ 0, 0, 0, 0 ] ⟩
      ∧ migrate_table_data ⟨ t + 1, c, 3, b ⟩ (fun _ => IterResp.read (m + 1) (some 0))
            (fuel + 4) name
          = some ⟨ name, "partial", some 0, some (4 * (m + 1)), some (t + 1) ⟩ := by
  intro t m c fuel b name
  have hrun : runLoop ⟨ t + 1, c, 3, b ⟩ (fun _ => IterResp.read (m + 1) (some 0))
      (fuel + 4) 0 initState = some ⟨ 0, 4 * (m + 1), 3, 4, [ 0, 0, 0, 0 ] ⟩ := by
    simp [runLoop, loopStep, initState, Nat.succ_pos]
    omega
  refine ⟨ hrun, ?_ ⟩
  have hne : ¬ t + 1 = 0 := Nat.succ_ne_zero t
  have hf : ¬ 4 * (m + 1) = 0 := by omega
  simp [migrate_table_data, hne, hrun, hf]

/-- The state reached after the `except` branch of the loop body: the full
`chunk_size` is added to the failure counter, the read offset is recorded,
and `migrated` is left unchanged. -/
def afterExc (cfg : DataCfg) (s : LoopState) : LoopState :=
  { s with failed := s.failed + cfg.chunk_size, offsets := s.offsets ++ [ s.migrated ] }

/-- C4 (counterexample): `chunk_size = 3`, an exception on the first
iteration with `continue_on_error = true`, then an empty read: the
recorded read offsets are `[0, 0]` — the read after the failed chunk
happens at the *same* offset 0, not at offset 3 past the failed chunk as
the claim's parenthetical asserts. -/
theorem C4_counterexample :
    runLoop ⟨ 10, 3, 3, true ⟩
        (fun i => if i = 0 then IterResp.exc else IterResp.read 0 Option.none) 5 0 initState
      = some ⟨ 0, 3, 0, 0, [ 0, 0 ] ⟩
    ∧ (0 : Nat) ≠ 3 :=
  ⟨ by decide, by decide ⟩

/-- C4 (amended): on an unexpected exception during a chunk's
read/convert/write, a full `chunk_size` is added to the failure counter;
with `continue_on_error` false the loop aborts immediately, otherwise it
continues — but with `migrated` unchanged, so the subsequent read starts
at the same offset, not past the failed chunk. -/
theorem C4_exception_adds_chunk_and_keeps_offset :
    ∀ (cfg : DataCfg) (resp : Nat → IterResp) (fuel i : Nat) (s : LoopState),
      resp i = IterResp.exc → s.migrated < cfg.total →
      (runLoop cfg resp (fuel + 1) i s =
        (if cfg.continue_on_error then runLoop cfg resp fuel (i + 1) (afterExc cfg s)
         else some (afterExc cfg s)))
      ∧ (afterExc cfg s).migrated = s.migrated := by
  intro cfg resp fuel i s hresp hlt
  refine ⟨ ?_, rfl ⟩
  simp only [runLoop, hlt, if_true, hresp, loopStep]
  cases hb : cfg.continue_on_error <;> simp [afterExc, hb]

/-- C4 (witness): the amended statement at the concrete configuration of
the counterexample (`chunk_size = 3`, exception at iteration 0,
`continue_on_error = true`). -/
theorem C4_witness :
    ((fun i => if i = 0 then IterResp.exc else IterResp.read 0 Option.none) 0 = IterResp.exc
      ∧ initState.migrated < (⟨ 10, 3, 3, true ⟩ : DataCfg).total) ∧
    (runLoop ⟨ 10, 3, 3, true ⟩
        (fun i => if i = 0 then IterResp.exc else IterResp.read 0 Option.none) (4 + 1) 0 initState =
      (if (⟨ 10, 3, 3, true ⟩ : DataCfg).continue_on_error then
        runLoop ⟨ 10, 3, 3, true ⟩
          (fun i => if i = 0 then IterResp.exc else IterResp.read 0 Option.none) 4 (0 + 1)
          (afterExc ⟨ 10, 3, 3, true ⟩ initState)
       else some (afterExc ⟨ 10, 3, 3, true ⟩ initState)))
    ∧ (afterExc ⟨ 10, 3, 3, true ⟩ initState).migrated = initState.migrated :=
  ⟨ ⟨ by decide, by decide ⟩,
    C4_exception_adds_chunk_and_keeps_offset ⟨ 10, 3, 3, true ⟩
      (fun i => if i = 0 then IterResp.exc else IterResp.read 0 Option.none) 4 0 initState
      (by decide) (by decide) ⟩

/-- C5 (counterexample): for a zero-row table the returned dictionary is
`{table_name, status: skipped}` only — the `migrated`, `failed` and
`total` keys are absent (`Option.none` in the model), contradicting the
claim that the skipped result also carries these three fields. -/
theorem C5_counterexample :
    migrate_table_data ⟨ 0, 10, 3, false ⟩ (fun _ => IterResp.exc) 1 "users"
        = some ⟨ "users", "skipped", Option.none, Option.none, Option.none ⟩
    ∧ (match migrate_table_data ⟨ 0, 10, 3, false ⟩ (fun _ => IterResp.exc) 1 "users" with
        | some r => r.migrated.isNone && r.failed.isNone && r.total.isNone
        | Option.none => false) = true :=
  ⟨ by decide, by decide ⟩

/-- C5 (amended): whenever the loop returns (any non-empty total, any
collaborator behaviour, enough fuel), the result carries `migrated`,
`failed` and `total`, with status `success` exactly when `failed = 0` and
`partial` otherwise; the zero-row result instead carries only the table
name and the `skipped` status. -/
theorem C5_result_fields :
    (∀ (cfg : DataCfg) (resp : Nat → IterResp) (fuel : Nat) (name : String),
        cfg.total = 0 →
        migrate_table_data cfg resp fuel name
          = some ⟨ name, "skipped", Option.none, Option.none, Option.none ⟩) ∧
    (∀ (cfg : DataCfg) (resp : Nat → IterResp) (fuel : Nat) (name : String) (r : MigResult),
        cfg.total ≠ 0 →
        migrate_table_data cfg resp fuel name = some r →
        ∃ m f, r.migrated = some m ∧ r.failed = some f ∧ r.total = some cfg.total
          ∧ r.table_name = name ∧ r.status = (if f = 0 then "success" else "partial")) := by
  constructor
  · intro cfg resp fuel name h
    simp [migrate_table_data, h]
  · intro cfg resp fuel name r h hm
    unfold migrate_table_data at hm
    rw [if_neg h] at hm
    cases hrun : runLoop cfg resp fuel 0 initState with
    | none => rw [hrun] at hm; simp at hm
    | some s =>
      rw [hrun] at hm
      have heq : (⟨ name, if s.failed = 0 then "success" else "partial",
          some s.migrated, some s.failed, some cfg.total ⟩ : MigResult) = r :=
        Option.some.inj (by simpa using hm)
      subst heq
      exact ⟨ s.migrated, s.failed, rfl, rfl, rfl, rfl, rfl ⟩

/-- C5 (witness): the amended statement at a concrete 2-row table whose
single chunk is fully inserted. -/
theorem C5_witness :
    ((⟨ 2, 10, 3, false ⟩ : DataCfg).total ≠ 0
      ∧ migrate_table_data ⟨ 2, 10, 3, false ⟩ (fun _ => IterResp.read 2 (some 2)) 3 "t"
          = some ⟨ "t", "success", some 2, some 0, some 2 ⟩) ∧
    (∃ m f, (some 2 : Option Nat) = some m ∧ (some 0 : Option Nat) = some f
      ∧ (some 2 : Option Nat) = some (⟨ 2, 10, 3, false ⟩ : DataCfg).total
      ∧ ("t" : String) = "t"
      ∧ ("success" : String) = (if f = 0 then "success" else "partial")) :=
  ⟨ ⟨ by decide, by decide ⟩,
    C5_result_fields.2 ⟨ 2, 10, 3, false ⟩ (fun _ => IterResp.read 2 (some 2)) 3 "t"
      ⟨ "t", "success", some 2, some 0, some 2 ⟩ (by decide) (by decide) ⟩

/-- The modelled `while` loop exhausts every amount of fuel from any
iteration index and any state with `migrated = 0`: the Python loop never
exits. -/
def loopDiverges (cfg : DataCfg) (resp : Nat → IterResp) : Prop :=
  ∀ (fuel i : Nat) (s : LoopState), s.migrated = 0 →
    runLoop cfg resp fuel i s = Option.none

/-- `migrate_table_data` produces no result for any amount of fuel. -/
def migrateDiverges (cfg : DataCfg) (resp : Nat → IterResp) (name : String) : Prop :=
  ∀ fuel : Nat, migrate_table_data cfg resp fuel name = Option.none

/-- C8 (counterexample): on a 1-row table with `continue_on_error = true`
and a read that raises on every iteration, the loop never terminates —
each iteration adds `chunk_size` to the failure counter, neither advances
`migrated` nor breaks, and the `while migrated < total` condition stays
true forever; the model exhausts every finite fuel. -/
theorem C8_counterexample :
    loopDiverges ⟨ 1, 10, 3, true ⟩ (fun _ => IterResp.exc)
    ∧ migrateDiverges ⟨ 1, 10, 3, true ⟩ (fun _ => IterResp.exc) "users" := by
  have hl : loopDiverges ⟨ 1, 10, 3, true ⟩ (fun _ => IterResp.exc) := by
    intro fuel
    induction fuel with
    | zero => intro i s h; rfl
    | succ fuel ih =>
      intro i s h
      have h01 : (0 : Nat) < 1 := Nat.one_pos
      simp only [runLoop, h, h01, if_true, loopStep, Bool.not_true]
      exact ih (i + 1) _ rfl
  refine ⟨ hl, ?_ ⟩
  intro fuel
  simp [migrate_table_data, hl fuel 0 initState rfl]

/-- Termination measure of the loop: remaining rows weighted by the retry
budget, plus the remaining retries at the current offset. -/
def loopMeasure (cfg : DataCfg) (s : LoopState) : Nat :=
  (cfg.total - s.migrated) * (cfg.max_retries + 1) + (cfg.max_retries - s.retry_count)

/-- With `continue_on_error = false` every loop iteration either breaks or
strictly decreases `loopMeasure`, so fuel exceeding the measure returns a
final state. -/
theorem runLoop_total_of_no_continue :
    ∀ (fuel : Nat) (cfg : DataCfg) (resp : Nat → IterResp) (i : Nat) (s : LoopState),
      cfg.continue_on_error = false →
      s.retry_count ≤ cfg.max_retries →
      loopMeasure cfg s < fuel →
      ∃ s2, runLoop cfg resp fuel i s = some s2 := by
  intro fuel
  induction fuel with
  | zero => intro cfg resp i s _ _ hm; exact absurd hm (Nat.not_lt_zero _)
  | succ fuel ih =>
    intro cfg resp i s hc hr hm
    by_cases hlt : s.migrated < cfg.total
    case neg => exact ⟨ s, by simp [runLoop, hlt] ⟩
    case pos =>
      cases hresp : resp i with
      | exc =>
        exact ⟨ ⟨ s.migrated, s.failed + cfg.chunk_size, s.retry_count, s.attempts,
            s.offsets ++ [ s.migrated ] ⟩, by simp [runLoop, hlt, hresp, loopStep, hc] ⟩
      | read n ins =>
        cases n with
        | zero =>
          exact ⟨ ⟨ s.migrated, s.failed, s.retry_count, s.attempts,
              s.offsets ++ [ s.migrated ] ⟩, by simp [runLoop, hlt, hresp, loopStep] ⟩
        | succ n =>
          cases ins with
          | none =>
            exact ⟨ ⟨ s.migrated, s.failed + cfg.chunk_size, s.retry_count, s.attempts,
                s.offsets ++ [ s.migrated ] ⟩, by simp [runLoop, hlt, hresp, loopStep, hc] ⟩
          | some k =>
            cases k with
            | zero =>
              by_cases hrlt : s.retry_count < cfg.max_retries
              · simp only [runLoop, hlt, if_true, hresp, loopStep, hrlt]
                apply ih cfg resp (i + 1)
                · exact hc
                · exact hrlt
                · unfold loopMeasure at hm ⊢
                  simp only
                  omega
              · exact ⟨ ⟨ s.migrated, s.failed + (n + 1), s.retry_count, s.attempts + 1,
                    s.offsets ++ [ s.migrated ] ⟩,
                  by simp [runLoop, hlt, hresp, loopStep, hrlt] ⟩
            | succ k =>
              simp only [runLoop, hlt, if_true, hresp, loopStep]
              apply ih cfg resp (i + 1)
              · exact hc
              · exact Nat.zero_le _
              · have hd1 : 1 ≤ cfg.total - s.migrated := by omega
                obtain ⟨ e, he ⟩ := Nat.exists_eq_add_of_le hd1
                have hle : cfg.total - (s.migrated + (k + 1)) ≤ e := by omega
                have hmul : (cfg.total - (s.migrated + (k + 1))) * (cfg.max_retries + 1)
                    ≤ e * (cfg.max_retries + 1) := Nat.mul_le_mul_right _ hle
                have hexp : (cfg.total - s.migrated) * (cfg.max_retries + 1)
                    = (cfg.max_retries + 1) + e * (cfg.max_retries + 1) := by
                  rw [he]; ring
                unfold loopMeasure at hm ⊢
                rw [hexp] at hm
                simp only
                set A := e * (cfg.max_retries + 1) with hA
                set B := (cfg.total - (s.migrated + (k + 1))) * (cfg.max_retries + 1) with hB
                omega

/-- C8 (amended): `migrate_table_data` terminates for every table and
every sequence of collaborator responses when `continue_on_error` is
false (fuel `total * (max_retries + 1) + max_retries + 1` always returns a
result); with `continue_on_error` true and a read that raises on every
iteration the loop runs forever (`C8_counterexample`). -/
theorem C8_terminates_when_abort_on_error :
    ∀ (cfg : DataCfg) (resp : Nat → IterResp) (name : String),
      cfg.continue_on_error = false →
      ∃ r, migrate_table_data cfg resp
        (cfg.total * (cfg.max_retries + 1) + cfg.max_retries + 1) name = some r := by
  intro cfg resp name hc
  by_cases h0 : cfg.total = 0
  · exact ⟨ ⟨ name, "skipped", Option.none, Option.none, Option.none ⟩,
      by simp [migrate_table_data, h0] ⟩
  · have hmeas : loopMeasure cfg initState
        < cfg.total * (cfg.max_retries + 1) + cfg.max_retries + 1 := by
      unfold loopMeasure initState
      simp only [Nat.sub_zero]
      exact Nat.lt_succ_self _
    obtain ⟨ s2, hs2 ⟩ :=
      runLoop_total_of_no_continue _ cfg resp 0 initState hc (Nat.zero_le _) hmeas
    exact ⟨ ⟨ name, if s2.failed = 0 then "success" else "partial",
        some s2.migrated, some s2.failed, some cfg.total ⟩,
      by simp [migrate_table_data, h0, hs2] ⟩

/-- C8 (witness): termination at a concrete 2-row table with
`continue_on_error = false` and an always-raising read. -/
theorem C8_witness :
    ((⟨ 2, 1, 3, false ⟩ : DataCfg).continue_on_error = false) ∧
    ∃ r, migrate_table_data ⟨ 2, 1, 3, false ⟩ (fun _ => IterResp.exc)
      ((⟨ 2, 1, 3, false ⟩ : DataCfg).total * ((⟨ 2, 1, 3, false ⟩ : DataCfg).max_retries + 1)
        + (⟨ 2, 1, 3, false ⟩ : DataCfg).max_retries + 1) "t" = some r :=
  ⟨ rfl, C8_terminates_when_abort_on_error ⟨ 2, 1, 3, false ⟩ (fun _ => IterResp.exc) "t" rfl ⟩
